import Mathlib

/-!
Verification of the MarketPrep repository against its specification.

Part 1 embeds the frontend authentication context and venue service
(src/frontend/src/contexts/AuthContext.tsx, src/frontend/src/services/venueService.ts)
as pure state-passing functions.

Part 2 models the inventory recommendation engine.  The engine source
(orchestrator, confidence estimator, feedback collector, retraining
scheduler) is not part of the checked-in sources — only its documentation
and test listings are — so those definitions are modelled from the spec
and marked as such in their doc comments.
-/

namespace MarketPrep

/-! ## Part 1a: browser localStorage model -/

/-- Browser localStorage: a partial map from string keys to string values. -/
abbrev LocalStorage := String → Option String

/-- localStorage.getItem(k). -/
def LocalStorage.getItem (ls : LocalStorage) (k : String) : Option String := ls k

/-- localStorage.setItem(k, v). -/
def LocalStorage.setItem (ls : LocalStorage) (k v : String) : LocalStorage :=
  fun q => if q = k then some v else ls q

/-- localStorage.removeItem(k). -/
def LocalStorage.removeItem (ls : LocalStorage) (k : String) : LocalStorage :=
  fun q => if q = k then none else ls q

/-! ## Part 1b: AuthContext (src/frontend/src/contexts/AuthContext.tsx) -/

/-- Vendor interface from the backend (AuthContext.tsx, `interface Vendor`). -/
structure Vendor where
  id : String
  email : String
  business_name : String
  subscription_tier : String
  subscription_status : String
deriving DecidableEq

/-- Login/Registration response from the backend (AuthContext.tsx, `interface LoginResponse`). -/
structure LoginResponse where
  access_token : String
  refresh_token : String
  token_type : String
  vendor : Vendor
deriving DecidableEq

/-- Browser-side state touched by the AuthContext: the localStorage map, the
React `vendor` state, and `window.location.href`. -/
structure AuthState where
  localStorage : LocalStorage
  vendor : Option Vendor
  locationHref : String

/-- `isAuthenticated` from the context value: `vendor !== null`. -/
def isAuthenticated (s : AuthState) : Bool := s.vendor.isSome

/-- `logout` (AuthContext.tsx lines 237-248): removes the three localStorage
keys, clears the vendor state, and redirects to /auth/login. -/
def logout (s : AuthState) : AuthState :=
  { localStorage :=
      ((s.localStorage.removeItem "access_token").removeItem
          "refresh_token").removeItem "vendor_email"
    vendor := none
    locationHref := "/auth/login" }

/-- The error information an axios-style failure carries:
`error.response?.status`, `error.response?.data?.detail`,
`error.response?.data?.message` (each possibly absent). -/
structure ApiFailure where
  status : Option Nat
  detail : Option String
  message : Option String
deriving DecidableEq

/-- Outcome of the backend POST /api/v1/auth/login request. -/
inductive LoginOutcome where
  | success (resp : LoginResponse)
  | failure (err : ApiFailure)
deriving DecidableEq

/-- JavaScript truthiness of a possibly-absent string: undefined and the empty
string are falsy. -/
def jsTruthy : Option String → Bool
  | none => false
  | some s => !(s == "")

/-- JavaScript `a || b` on possibly-absent strings. -/
def jsOr (a b : Option String) : Option String := if jsTruthy a then a else b

/-- `login` (AuthContext.tsx lines 153-184).  On success it stores the two
tokens and the vendor email in localStorage and sets the vendor state; on
failure it re-throws a user-facing message and performs no state change.
Returns the new browser state together with the thrown message, if any. -/
def login (s : AuthState) (outcome : LoginOutcome) : AuthState × Option String :=
  match outcome with
  | .success resp =>
      let ls1 := s.localStorage.setItem "access_token" resp.access_token
      let ls2 := ls1.setItem "refresh_token" resp.refresh_token
      let ls3 := ls2.setItem "vendor_email" resp.vendor.email
      ({ s with localStorage := ls3, vendor := some resp.vendor }, none)
  | .failure err =>
      let errorMessage := jsOr err.detail err.message
      if err.status = some 401 then
        (s, some "Invalid email or password")
      else
        (s, some (if jsTruthy errorMessage then errorMessage.getD ""
                  else "Login failed. Please try again."))

/-! ## Part 1c: venueService (src/frontend/src/services/venueService.ts) -/

/-- URLSearchParams: an ordered list of key/value pairs. -/
structure URLSearchParams where
  pairs : List (String × String)
deriving DecidableEq

/-- URLSearchParams.append(k, v). -/
def URLSearchParams.append (p : URLSearchParams) (k v : String) : URLSearchParams :=
  ⟨p.pairs ++ [(k, v)]⟩

/-- URLSearchParams.toString(): k=v pairs joined with &.  (The keys and values
appearing in venueService.ts need no percent-encoding.) -/
def URLSearchParams.render (p : URLSearchParams) : String :=
  String.intercalate "&" (p.pairs.map fun kv => kv.1 ++ "=" ++ kv.2)

/-- JavaScript String(b) on a boolean. -/
def stringOfBool (b : Bool) : String := if b then "true" else "false"

/-- `listVenues` (venueService.ts lines 46-54), reduced to the URL it requests:
builds URLSearchParams, appends is_active when the argument is not undefined,
and appends `?query` only when the rendered query string is truthy. -/
def listVenuesUrl (isActive : Option Bool) : String :=
  let params : URLSearchParams :=
    match isActive with
    | some b => URLSearchParams.append ⟨[]⟩ "is_active" (stringOfBool b)
    | none => ⟨[]⟩
  "/api/v1/venues" ++ (if params.render ≠ "" then "?" ++ params.render else "")

/-! ## Part 2: the recommendation engine, modelled from the spec
The engine sources (backend src/services, orchestrator, confidence
estimator, feedback collector, retraining scheduler) are not among the
checked-in files — only their documentation and test listings are — so
every definition in this part is modelled from the spec text. -/

/-- Modelled from the spec (§4.3): venue data-sufficiency state. -/
inductive VenueState where
  | COLD
  | WARM
  | HOT
deriving DecidableEq

/-- Modelled from the spec (§4.5, glossary): discrete confidence tier. -/
inductive ConfidenceTier where
  | HIGH
  | MEDIUM
  | LOW
deriving DecidableEq

/-- Modelled from the spec (§4.5, §9): the tunable constants of the
confidence estimator, exposed as configuration.  Model uncertainty is kept
on an abstract integer scale. -/
structure ConfidenceConfig where
  stalenessThreshold : Nat
  uncertaintyCutoff : Nat
deriving DecidableEq

/-- Modelled from the spec (§4.5): `estimateConfidence(venueState,
modelUncertainty, dataRecencyDays)`.  Rules applied in order, first match
wins: COLD → LOW; stale → LOW; WARM or high uncertainty → MEDIUM;
otherwise HIGH.  The missing source is the backend confidence estimator. -/
def estimateConfidence (cfg : ConfidenceConfig) (venueState : VenueState)
    (modelUncertainty : Nat) (dataRecencyDays : Nat) : ConfidenceTier :=
  if venueState = .COLD then .LOW
  else if dataRecencyDays > cfg.stalenessThreshold then .LOW
  else if venueState = .WARM ∨ modelUncertainty > cfg.uncertaintyCutoff then .MEDIUM
  else .HIGH

/-- Modelled from the spec (§6): a catalog entry from the external Catalog
collaborator, `listActiveProducts(vendorId) -> [(productId, minOrderIncrement)]`. -/
structure CatalogProduct where
  productId : String
  minOrderIncrement : Nat
deriving DecidableEq

/-- Modelled from the spec (§4.4): the raw quantity estimate is clamped to
≥ 0 and rounded to the product's minimum order increment (rounding to the
nearest multiple).  The missing source is the backend prediction model. -/
def clampAndRound (raw : Int) (inc : Nat) : Nat :=
  let clamped := raw.toNat
  (clamped + inc / 2) / inc * inc

/-- Modelled from the spec (§3): WeatherSnapshot source tag, live or
historical-average. -/
inductive WeatherSource where
  | live
  | historicalAverage
deriving DecidableEq

/-- Modelled from the spec (§3): WeatherSnapshot. -/
structure WeatherSnapshot where
  temperature : Int
  precipitationProbability : Nat
  conditionCode : Nat
  source : WeatherSource
deriving DecidableEq

/-- Modelled from the spec (§4.2, §7): the ways a live external-signal call
can fail (timeout, error, rate limit). -/
inductive SignalFailure where
  | timeout
  | apiError
  | rateLimited
deriving DecidableEq

/-- Modelled from the spec (§4.2): the ResilientAdapter decorator for the
weather capability.  It tries the Live adapter and on timeout/error/rate-limit
returns the HistoricalFallbackAdapter result tagged source=historical-average,
never propagating the failure. -/
def resilientFetchWeather (liveResult : Except SignalFailure WeatherSnapshot)
    (hist : WeatherSnapshot) : WeatherSnapshot :=
  match liveResult with
  | .ok snap => snap
  | .error _ => { hist with source := .historicalAverage }

/-- Modelled from the spec (§3): a Recommendation row.  `recId` is the row
identity under which it is persisted. -/
structure Recommendation where
  recId : Nat
  product_id : String
  venue_id : String
  date : Nat
  recommended_quantity : Nat
  confidence_tier : ConfidenceTier
  model_version_id : Nat
  explanation_tags : List String
deriving DecidableEq

/-- Modelled from the spec (§4.6): the per-request environment the
Orchestrator draws on — the vendor's active catalog, the model's raw
estimate per product, the venue-profile derived inputs of the confidence
estimator, the two weather adapters, and the active model version id. -/
structure GenEnv where
  catalog : List CatalogProduct
  rawEstimate : String → Int
  venueState : VenueState
  modelUncertainty : Nat
  dataRecencyDays : Nat
  liveWeather : Except SignalFailure WeatherSnapshot
  histWeather : WeatherSnapshot
  cfg : ConfidenceConfig
  activeModelVersion : Nat

/-- Modelled from the spec (§4.6, §5): the Orchestrator's persistent state —
the insert-only store of Recommendation rows and the next fresh row identity. -/
structure OrchestratorState where
  store : List Recommendation
  nextId : Nat
deriving DecidableEq

/-- Modelled from the spec (§4.6): builds one Recommendation row per catalog
product, assigning consecutive fresh identities starting at `nid`.  The
weather-derived explanation tags are shared by the whole batch. -/
def generateRows (env : GenEnv) (venueId : String) (date : Nat)
    (weatherTags : List String) : List CatalogProduct → Nat → List Recommendation
  | [], _ => []
  | p :: rest, nid =>
      { recId := nid
        product_id := p.productId
        venue_id := venueId
        date := date
        recommended_quantity := clampAndRound (env.rawEstimate p.productId) p.minOrderIncrement
        confidence_tier := estimateConfidence env.cfg env.venueState
          env.modelUncertainty env.dataRecencyDays
        model_version_id := env.activeModelVersion
        explanation_tags := weatherTags } ::
      generateRows env venueId date weatherTags rest (nid + 1)

/-- Modelled from the spec (§4.6): `generate(vendorId, venueId, date)`.
Fetches weather through the ResilientAdapter, tags the batch
"historical-weather" when the snapshot is degraded, builds one row per
catalog product, and persists the rows by appending them to the insert-only
store.  The missing source is the backend recommendation orchestrator. -/
def generate (env : GenEnv) (venueId : String) (date : Nat)
    (st : OrchestratorState) : List Recommendation × OrchestratorState :=
  let weather := resilientFetchWeather env.liveWeather env.histWeather
  let weatherTags := if weather.source = .historicalAverage then ["historical-weather"] else []
  let rows := generateRows env venueId date weatherTags env.catalog st.nextId
  (rows, { store := st.store ++ rows, nextId := st.nextId + env.catalog.length })

/-- Modelled from the spec (§3): FeedbackRecord. -/
structure FeedbackRecord where
  recommendation_id : Nat
  actual_quantity : Nat
  submitted_at : Nat
deriving DecidableEq

/-- Modelled from the spec (§7): the feedback collector's error. -/
inductive FeedbackError where
  | DuplicateFeedbackError
deriving DecidableEq

/-- Modelled from the spec (§4.7): the feedback collector's store of
FeedbackRecord rows. -/
structure FeedbackStore where
  records : List FeedbackRecord
deriving DecidableEq

/-- Modelled from the spec (§4.7): look up the feedback already recorded for
a recommendation id, if any. -/
def findFeedback (fs : FeedbackStore) (rid : Nat) : Option FeedbackRecord :=
  fs.records.find? fun r => r.recommendation_id == rid

/-- Modelled from the spec (§4.7): `submitFeedback(recommendationId,
actualQuantity) -> FeedbackRecord | DuplicateFeedbackError`.  A second
feedback for the same recommendation is rejected; on rejection no state is
produced, so the caller's store is unchanged.  The missing source is the
backend feedback collector. -/
def submitFeedback (fs : FeedbackStore) (rid : Nat) (actualQuantity : Nat)
    (now : Nat) : Except FeedbackError (FeedbackRecord × FeedbackStore) :=
  match findFeedback fs rid with
  | some _ => .error .DuplicateFeedbackError
  | none =>
      let rec0 : FeedbackRecord :=
        { recommendation_id := rid, actual_quantity := actualQuantity, submitted_at := now }
      .ok (rec0, ⟨fs.records ++ [rec0]⟩)

/-- Modelled from the spec (§3): ModelVersion, immutable once created. -/
structure ModelVersion where
  version_id : Nat
  trained_at : Nat
  training_row_count : Nat
  feature_schema_hash : Nat
deriving DecidableEq

/-- Modelled from the spec (§9): the model version registry — an
arena of immutable version records indexed by an explicit active pointer. -/
structure ModelRegistry where
  versions : List ModelVersion
  activeId : Nat
deriving DecidableEq

/-- Well-formedness of the registry: version ids are distinct and the active
pointer names one of them. -/
def ModelRegistry.WF (reg : ModelRegistry) : Prop :=
  (reg.versions.map ModelVersion.version_id).Nodup ∧
  reg.activeId ∈ reg.versions.map ModelVersion.version_id

/-- A version is active when it is in the registry and the active pointer
names it. -/
def IsActive (reg : ModelRegistry) (v : ModelVersion) : Prop :=
  v ∈ reg.versions ∧ v.version_id = reg.activeId

/-- Modelled from the spec (§4.7): the sanity check — the candidate's error
on the held-out recent slice must not regress beyond a tolerance versus the
currently active version. -/
def sanityCheck (candErr activeErr tolerance : Nat) : Bool :=
  candErr ≤ activeErr + tolerance

/-- Modelled from the spec (§4.7, §9): one retraining step.  A candidate
ModelVersion that passes the sanity check is added and becomes active; a
candidate that fails it is discarded, an alert is raised (the returned
Bool), and the registry — including the active pointer — is unchanged.
The missing source is the backend retraining scheduler. -/
def retrainStep (reg : ModelRegistry) (cand : ModelVersion)
    (candErr activeErr tolerance : Nat) : ModelRegistry × Bool :=
  if sanityCheck candErr activeErr tolerance then
    ({ versions := reg.versions ++ [cand], activeId := cand.version_id }, false)
  else
    (reg, true)

/-! ## Helper lemmas -/

/-- Length of a generated batch: one row per catalog product. -/
theorem generateRows_length (env : GenEnv) (venueId : String) (date : Nat)
    (tags : List String) :
    ∀ (ps : List CatalogProduct) (nid : Nat),
      (generateRows env venueId date tags ps nid).length = ps.length := by
  intro ps
  induction ps with
  | nil => intro nid; rfl
  | cons p rest ih => intro nid; simp [generateRows, ih (nid + 1)]

/-- Shape of any row in a generated batch: it comes from a catalog product,
its quantity is the clamped-and-rounded estimate for that product, it carries
the batch tags, and its identity lies in the fresh range. -/
theorem mem_generateRows (env : GenEnv) (venueId : String) (date : Nat)
    (tags : List String) :
    ∀ (ps : List CatalogProduct) (nid : Nat) (r : Recommendation),
      r ∈ generateRows env venueId date tags ps nid →
      ∃ p ∈ ps, r.product_id = p.productId ∧
        r.recommended_quantity =
          clampAndRound (env.rawEstimate p.productId) p.minOrderIncrement ∧
        r.explanation_tags = tags ∧ nid ≤ r.recId ∧ r.recId < nid + ps.length := by
  intro ps
  induction ps with
  | nil => intro nid r h; simp [generateRows] at h
  | cons p rest ih =>
      intro nid r h
      simp only [generateRows, List.mem_cons] at h
      rcases h with h | h
      · subst h
        refine ⟨p, List.mem_cons_self p rest, rfl, rfl, rfl, Nat.le_refl _, ?_⟩
        simp
      · obtain ⟨q, hq, h1, h2, h3, h4, h5⟩ := ih (nid + 1) r h
        refine ⟨q, List.mem_cons_of_mem p hq, h1, h2, h3, by omega, ?_⟩
        simp only [List.length_cons]
        omega

/-- Every well-formed registry has exactly one active version. -/
theorem unique_active_of_wf (reg : ModelRegistry) (hwf : reg.WF) :
    ∃! v, IsActive reg v := by
  obtain ⟨hnodup, hmem⟩ := hwf
  obtain ⟨v, hv, hvid⟩ := List.mem_map.mp hmem
  refine ⟨v, ⟨hv, hvid⟩, ?_⟩
  rintro w ⟨hw, hwid⟩
  exact List.inj_on_of_nodup_map hnodup hw hv (hwid.trans hvid.symm)

/-- find? skips a list in which it finds nothing. -/
theorem find?_append_of_none {α : Type} (p : α → Bool) {l1 : List α}
    (h : l1.find? p = none) (l2 : List α) :
    (l1 ++ l2).find? p = l2.find? p := by
  simp [List.find?_append, h]

/-! ## Concrete instances used by the witness theorems -/

/-- A concrete vendor. -/
def vendorEx : Vendor :=
  ⟨"v-1", "farmer@example.com", "E2E Test Farm", "free", "active"⟩

/-- A concrete browser state: logged in, with an unrelated "theme" key also
present in localStorage. -/
def sAuthEx : AuthState :=
  ⟨fun k => if k = "access_token" then some "old-token"
            else if k = "theme" then some "dark" else none,
   some vendorEx, "/dashboard"⟩

/-- A concrete 401 failure. -/
def errEx : ApiFailure := ⟨some 401, none, some "Unauthorized"⟩

/-- A concrete successful login response. -/
def respEx : LoginResponse := ⟨"at-1", "rt-1", "bearer", vendorEx⟩

/-- A concrete generation environment: one product, live weather available. -/
def envEx : GenEnv :=
  ⟨[⟨"bread", 5⟩], fun _ => 12, .HOT, 0, 0,
   .ok ⟨20, 10, 1, .live⟩, ⟨15, 30, 2, .historicalAverage⟩, ⟨180, 10⟩, 1⟩

/-- The same environment with the live weather adapter timing out. -/
def envFailEx : GenEnv := { envEx with liveWeather := .error .timeout }

/-- An empty orchestrator state. -/
def stEx : OrchestratorState := ⟨[], 0⟩

/-- The row the first generate call on `envEx` produces. -/
def recEx : Recommendation := ⟨0, "bread", "v1", 7, 10, .HIGH, 1, []⟩

/-- The row the second generate call on `envEx` produces. -/
def rec2Ex : Recommendation := ⟨1, "bread", "v1", 7, 10, .HIGH, 1, []⟩

/-- The row generate produces on `envFailEx`: tagged as degraded weather. -/
def recFailEx : Recommendation :=
  ⟨0, "bread", "v1", 7, 10, .HIGH, 1, ["historical-weather"]⟩

/-- An empty feedback store. -/
def fsEx : FeedbackStore := ⟨[]⟩

/-- A registry with one version, which is active. -/
def regEx : ModelRegistry := ⟨[⟨1, 0, 100, 42⟩], 1⟩

/-- A retraining candidate version. -/
def candEx : ModelVersion := ⟨2, 5, 150, 42⟩

/-- Identity range of a generated batch: every row's id is fresh. -/
theorem generate_id_range (env : GenEnv) (venueId : String) (date : Nat)
    (st : OrchestratorState) (r : Recommendation)
    (h : r ∈ (generate env venueId date st).1) :
    st.nextId ≤ r.recId ∧ r.recId < st.nextId + env.catalog.length := by
  simp only [generate] at h
  obtain ⟨p, -, -, -, -, h4, h5⟩ :=
    mem_generateRows env venueId date _ env.catalog st.nextId r h
  exact ⟨h4, h5⟩

/-! ## Claim theorems -/

/-- C1: every Recommendation produced by the Orchestrator's generate has
recommended_quantity ≥ 0 and an exact integer multiple of the catalog's
minimum order increment for that product. -/
theorem generate_quantity_clamped_and_rounded (env : GenEnv) (venueId : String)
    (date : Nat) (st : OrchestratorState) (r : Recommendation)
    (hmem : r ∈ (generate env venueId date st).1) :
    0 ≤ r.recommended_quantity ∧
    ∃ p ∈ env.catalog, r.product_id = p.productId ∧
      p.minOrderIncrement ∣ r.recommended_quantity := by
  refine ⟨Nat.zero_le _, ?_⟩
  simp only [generate] at hmem
  obtain ⟨p, hp, hpid, hq, -, -, -⟩ :=
    mem_generateRows env venueId date _ env.catalog st.nextId r hmem
  refine ⟨p, hp, hpid, ?_⟩
  rw [hq]
  simp only [clampAndRound]
  exact Nat.dvd_mul_left _ _

/-- Witness for C1 at a concrete environment: one product with increment 5,
raw estimate 12, producing quantity 10. -/
theorem generate_quantity_clamped_and_rounded_witness :
    0 ≤ recEx.recommended_quantity ∧
    ∃ p ∈ envEx.catalog, recEx.product_id = p.productId ∧
      p.minOrderIncrement ∣ recEx.recommended_quantity :=
  generate_quantity_clamped_and_rounded envEx "v1" 7 stEx recEx (by decide)

/-- C2: the first submitFeedback for a recommendation id creates the
FeedbackRecord and stores it; a second submitFeedback for the same id
returns DuplicateFeedbackError while the first record is still found
unchanged (and, the rejection producing no store, no state changes). -/
theorem submitFeedback_rejects_duplicate (fs : FeedbackStore)
    (rid q1 t1 q2 t2 : Nat) (hfresh : findFeedback fs rid = none) :
    submitFeedback fs rid q1 t1 =
      .ok (⟨rid, q1, t1⟩, ⟨fs.records ++ [⟨rid, q1, t1⟩]⟩) ∧
    findFeedback ⟨fs.records ++ [⟨rid, q1, t1⟩]⟩ rid = some ⟨rid, q1, t1⟩ ∧
    submitFeedback ⟨fs.records ++ [⟨rid, q1, t1⟩]⟩ rid q2 t2 =
      .error .DuplicateFeedbackError := by
  have hfind : findFeedback ⟨fs.records ++ [⟨rid, q1, t1⟩]⟩ rid = some ⟨rid, q1, t1⟩ := by
    unfold findFeedback at hfresh ⊢
    rw [find?_append_of_none _ hfresh]
    simp
  refine ⟨?_, hfind, ?_⟩
  · simp [submitFeedback, hfresh]
  · simp [submitFeedback, hfind]

/-- Witness for C2: feedback for recommendation 3 is accepted once and
rejected the second time. -/
theorem submitFeedback_rejects_duplicate_witness :
    submitFeedback fsEx 3 40 100 =
      .ok (⟨3, 40, 100⟩, ⟨fsEx.records ++ [⟨3, 40, 100⟩]⟩) ∧
    findFeedback ⟨fsEx.records ++ [⟨3, 40, 100⟩]⟩ 3 = some ⟨3, 40, 100⟩ ∧
    submitFeedback ⟨fsEx.records ++ [⟨3, 40, 100⟩]⟩ 3 50 200 =
      .error .DuplicateFeedbackError :=
  submitFeedback_rejects_duplicate fsEx 3 40 100 50 200 (by decide)

/-- C3: whenever dataRecencyDays exceeds the staleness threshold the
confidence tier is LOW, for every venue state and every uncertainty —
staleness dominates everything the rules after it consider. -/
theorem estimateConfidence_staleness_dominates (cfg : ConfidenceConfig)
    (venueState : VenueState) (modelUncertainty dataRecencyDays : Nat)
    (hstale : dataRecencyDays > cfg.stalenessThreshold) :
    estimateConfidence cfg venueState modelUncertainty dataRecencyDays = .LOW := by
  cases venueState <;> simp [estimateConfidence, hstale]

/-- Witness for C3: a HOT venue with zero model uncertainty but 200 days of
staleness against a 180-day threshold is LOW. -/
theorem estimateConfidence_staleness_dominates_witness :
    200 > (⟨180, 10⟩ : ConfidenceConfig).stalenessThreshold ∧
    estimateConfidence ⟨180, 10⟩ .HOT 0 200 = .LOW :=
  ⟨by decide, estimateConfidence_staleness_dominates ⟨180, 10⟩ .HOT 0 200 (by decide)⟩

/-- C4: a COLD venue always yields confidence LOW, regardless of model
uncertainty and data recency — the COLD rule is first in the ordering. -/
theorem estimateConfidence_cold_low (cfg : ConfidenceConfig)
    (modelUncertainty dataRecencyDays : Nat) :
    estimateConfidence cfg .COLD modelUncertainty dataRecencyDays = .LOW := by
  simp [estimateConfidence]

/-- C5: generating twice for the same (vendor, venue, date) key appends a
fresh batch each time to the insert-only store — every previously persisted
row is left unchanged — each batch has one row per catalog product, and the
two batches have pairwise distinct row identities. -/
theorem generate_insert_only_distinct_ids (env : GenEnv) (venueId : String)
    (date : Nat) (st0 : OrchestratorState) :
    ((generate env venueId date st0).2).store =
      st0.store ++ (generate env venueId date st0).1 ∧
    ((generate env venueId date (generate env venueId date st0).2).2).store =
      ((generate env venueId date st0).2).store ++
        (generate env venueId date (generate env venueId date st0).2).1 ∧
    (generate env venueId date st0).1.length = env.catalog.length ∧
    (generate env venueId date (generate env venueId date st0).2).1.length =
      env.catalog.length ∧
    ∀ r1 ∈ (generate env venueId date st0).1,
      ∀ r2 ∈ (generate env venueId date (generate env venueId date st0).2).1,
        r1.recId ≠ r2.recId := by
  refine ⟨rfl, rfl, ?_, ?_, ?_⟩
  · simp [generate, generateRows_length]
  · simp [generate, generateRows_length]
  · intro r1 h1 r2 h2
    have hb1 := generate_id_range env venueId date st0 r1 h1
    have hb2 := generate_id_range env venueId date _ r2 h2
    have hn : ((generate env venueId date st0).2).nextId =
        st0.nextId + env.catalog.length := rfl
    omega

/-- Witness for C5: the two rows generated back to back for the same key
carry distinct identities 0 and 1. -/
theorem generate_insert_only_distinct_ids_witness : recEx.recId ≠ rec2Ex.recId :=
  (generate_insert_only_distinct_ids envEx "v1" 7 stEx).2.2.2.2
    recEx (by decide) rec2Ex (by decide)

/-- C6: when the live weather adapter fails, the ResilientAdapter returns
the historical snapshot tagged source=historical-average, every generated
row carries the degraded-weather marker, and the request still completes
with one row per catalog product. -/
theorem generate_weather_fallback_degraded (env : GenEnv) (venueId : String)
    (date : Nat) (st : OrchestratorState) (f : SignalFailure)
    (hfail : env.liveWeather = .error f) :
    (resilientFetchWeather env.liveWeather env.histWeather).source =
      .historicalAverage ∧
    (∀ r ∈ (generate env venueId date st).1,
      "historical-weather" ∈ r.explanation_tags) ∧
    (generate env venueId date st).1.length = env.catalog.length := by
  have hsrc : (resilientFetchWeather env.liveWeather env.histWeather).source =
      .historicalAverage := by
    rw [hfail]; rfl
  refine ⟨hsrc, ?_, by simp [generate, generateRows_length]⟩
  intro r hr
  simp only [generate] at hr
  obtain ⟨p, -, -, -, htags, -, -⟩ :=
    mem_generateRows env venueId date _ env.catalog st.nextId r hr
  simp [htags, hsrc]

/-- Witness for C6: under a live-weather timeout the generated row is tagged
"historical-weather". -/
theorem generate_weather_fallback_degraded_witness :
    "historical-weather" ∈ recFailEx.explanation_tags :=
  (generate_weather_fallback_degraded envFailEx "v1" 7 stEx .timeout rfl).2.1
    recFailEx (by decide)

/-- C7: a well-formed registry has exactly one active ModelVersion, a
retraining step on a fresh candidate preserves that (well-formedness and
unique activity), and when the candidate fails the sanity check the step
discards it, raises the alert and leaves the registry — active pointer
included — unchanged. -/
theorem retrain_sanity_gate (reg : ModelRegistry) (cand : ModelVersion)
    (candErr activeErr tolerance : Nat) (hwf : reg.WF)
    (hfresh : cand.version_id ∉ reg.versions.map ModelVersion.version_id) :
    (∃! v, IsActive reg v) ∧
    ((retrainStep reg cand candErr activeErr tolerance).1).WF ∧
    (∃! v, IsActive (retrainStep reg cand candErr activeErr tolerance).1 v) ∧
    (sanityCheck candErr activeErr tolerance = false →
      retrainStep reg cand candErr activeErr tolerance = (reg, true)) := by
  have hwf2 : ((retrainStep reg cand candErr activeErr tolerance).1).WF := by
    unfold retrainStep
    by_cases hs : sanityCheck candErr activeErr tolerance = true
    · rw [if_pos hs]
      obtain ⟨hnodup, hmem⟩ := hwf
      constructor
      · simp only [List.map_append, List.map_cons, List.map_nil]
        rw [List.nodup_append]
        exact ⟨hnodup, List.nodup_singleton _,
          by simpa [List.disjoint_singleton] using hfresh⟩
      · exact List.mem_map_of_mem _
          (List.mem_append_right _ (List.mem_singleton_self _))
    · rw [if_neg hs]
      exact hwf
  refine ⟨unique_active_of_wf reg hwf, hwf2, unique_active_of_wf _ hwf2, ?_⟩
  intro hs
  simp [retrainStep, hs]

/-- Witness for C7: a candidate whose held-out error regresses by 15 against
a tolerance of 10 is discarded and the registry is unchanged. -/
theorem retrain_sanity_gate_witness :
    retrainStep regEx candEx 115 100 10 = (regEx, true) :=
  (retrain_sanity_gate regEx candEx 115 100 10 ⟨by decide, by decide⟩
    (by decide)).2.2.2 (by decide)

/-- C8: logout removes exactly the three keys access_token, refresh_token
and vendor_email from localStorage (every other key is untouched), clears
the vendor state so isAuthenticated is false, and redirects to /auth/login,
from every prior state. -/
theorem logout_clears_session (s : AuthState) :
    (logout s).localStorage.getItem "access_token" = none ∧
    (logout s).localStorage.getItem "refresh_token" = none ∧
    (logout s).localStorage.getItem "vendor_email" = none ∧
    (∀ k, k ≠ "access_token" → k ≠ "refresh_token" → k ≠ "vendor_email" →
      (logout s).localStorage.getItem k = s.localStorage.getItem k) ∧
    (logout s).vendor = none ∧
    isAuthenticated (logout s) = false ∧
    (logout s).locationHref = "/auth/login" := by
  refine ⟨rfl, rfl, rfl, ?_, rfl, rfl, rfl⟩
  intro k h1 h2 h3
  simp [logout, LocalStorage.getItem, LocalStorage.removeItem, h1, h2, h3]

/-- Witness for C8: from a logged-in state the unrelated "theme" key
survives logout. -/
theorem logout_clears_session_witness :
    (logout sAuthEx).localStorage.getItem "theme" =
      sAuthEx.localStorage.getItem "theme" :=
  (logout_clears_session sAuthEx).2.2.2.1 "theme" (by decide) (by decide) (by decide)

/-- C9: a failed login leaves the browser state (localStorage and vendor)
unchanged and throws exactly "Invalid email or password" when the status is
401; a successful login stores the two tokens and the vendor email and sets
the vendor state from the response, throwing nothing. -/
theorem login_stores_only_on_success (s : AuthState) (err : ApiFailure)
    (resp : LoginResponse) :
    ((login s (.failure err)).1 = s ∧
      (err.status = some 401 →
        (login s (.failure err)).2 = some "Invalid email or password")) ∧
    ((login s (.success resp)).1.localStorage.getItem "access_token" =
        some resp.access_token ∧
      (login s (.success resp)).1.localStorage.getItem "refresh_token" =
        some resp.refresh_token ∧
      (login s (.success resp)).1.localStorage.getItem "vendor_email" =
        some resp.vendor.email ∧
      (login s (.success resp)).1.vendor = some resp.vendor ∧
      (login s (.success resp)).2 = none) := by
  refine ⟨⟨?_, ?_⟩, rfl, rfl, rfl, rfl, rfl⟩
  · simp only [login]
    split <;> rfl
  · intro h
    simp [login, h]

/-- Witness for C9: a 401 failure throws the exact message. -/
theorem login_stores_only_on_success_witness :
    (login sAuthEx (.failure errEx)).2 = some "Invalid email or password" :=
  ((login_stores_only_on_success sAuthEx errEx respEx).1).2 rfl

/-- C10: listVenues requests exactly /api/v1/venues with no query string
when isActive is undefined, and with is_active=true or is_active=false when
it is true or false. -/
theorem listVenuesUrl_exact :
    listVenuesUrl none = "/api/v1/venues" ∧
    listVenuesUrl (some true) = "/api/v1/venues?is_active=true" ∧
    listVenuesUrl (some false) = "/api/v1/venues?is_active=false" :=
  ⟨rfl, rfl, rfl⟩

end MarketPrep
